import Mathlib

/-!
Shallow embedding of the 2-day-mlops repository:
  * `src/scripts/run_batch_inference.py` — batch-inference driver (polling loop,
    failure diagnostics, exit behaviour);
  * `src/mlops/pipelines/iris_pipeline.py` — `get_pipeline` (step list, dependency
    order, approval status);
  * `src/projects/iris_classifier/src/evaluate.py` — model loading with tar fallback,
    the four sklearn metrics, the JSON evaluation report;
  * `src/projects/iris_classifier/src/inference.py` — `input_fn` / `output_fn`
    content-type gates.
Machine floats of the Python code are modelled as exact rationals `ℚ`; the metric
computations are counting-based, so the [0,1] bounds and schema facts are about the
mathematical functions the scripts implement.
-/

/-! ## Batch-inference driver: the polling loop (run_batch_inference.py lines 133-144)

The loop body is
    `while True: status = describe(...); if status in [C,F,S]: break; sleep(10)`.
We embed the sequence of statuses the successive `describe_transform_job` calls
return as a function `Nat → String`, and run the loop with explicit fuel: the
loop exits at the first index whose status is terminal, provided the fuel reaches
it, and sleeps a fixed 10 seconds after every non-terminal poll. -/

/-- The driver's terminal-status test, `status in ['Completed', 'Failed', 'Stopped']`
(run_batch_inference.py line 140). -/
def terminalStatus (s : String) : Bool :=
  s == "Completed" || s == "Failed" || s == "Stopped"

/-- The polling loop, run with fuel, starting at poll index `i`: returns the index
of the poll at which the loop breaks, or `none` if the fuel is exhausted before a
terminal status is seen. -/
def pollFrom (status : Nat → String) : Nat → Nat → Option Nat
  | 0, _ => none
  | Nat.succ fuel, i =>
      if terminalStatus (status i) then some i else pollFrom status fuel (i + 1)

/-- The whole polling loop of `main`, started at the first poll. -/
def pollExit (status : Nat → String) (fuel : Nat) : Option Nat :=
  pollFrom status fuel 0

/-- The sleeps (in seconds) the loop performs, one `time.sleep(10)` after every
non-terminal poll (run_batch_inference.py line 144). -/
def sleepsFrom (status : Nat → String) : Nat → Nat → List Nat
  | 0, _ => []
  | Nat.succ fuel, i =>
      if terminalStatus (status i) then []
      else 10 :: sleepsFrom status fuel (i + 1)

/-- The sleep trace of the whole loop. -/
def pollSleeps (status : Nat → String) (fuel : Nat) : List Nat :=
  sleepsFrom status fuel 0

lemma pollFrom_eq_some (status : Nat → String) :
    ∀ (fuel i j : Nat),
      pollFrom status fuel i = some j ↔
        (i ≤ j ∧ j < i + fuel ∧ terminalStatus (status j) = true ∧
          ∀ k, i ≤ k → k < j → terminalStatus (status k) = false) := by
  intro fuel
  induction fuel with
  | zero =>
      intro i j
      simp only [pollFrom]
      constructor
      · intro h; cases h
      · rintro ⟨h1, h2, _⟩; omega
  | succ n ih =>
      intro i j
      simp only [pollFrom]
      by_cases hterm : terminalStatus (status i) = true
      · simp only [hterm, if_pos]
        constructor
        · rintro ⟨rfl⟩
          exact ⟨le_refl i, by omega, hterm, fun k hk1 hk2 => absurd hk1 (by omega)⟩
        · rintro ⟨h1, _, hj, hmin⟩
          rcases Nat.lt_or_ge i j with hlt | hge
          · exact absurd hterm (by simp [hmin i (le_refl i) hlt])
          · have : i = j := le_antisymm h1 hge
            exact this ▸ rfl
      · have hterm' : terminalStatus (status i) = false := by
          cases h : terminalStatus (status i)
          · rfl
          · exact absurd h hterm
        simp only [hterm', if_neg, Bool.false_eq_true, not_false_iff]
        rw [ih (i + 1) j]
        constructor
        · rintro ⟨h1, h2, h3, h4⟩
          refine ⟨by omega, by omega, h3, fun k hk1 hk2 => ?_⟩
          rcases Nat.eq_or_lt_of_le hk1 with rfl | hlt
          · exact hterm'
          · exact h4 k (by omega) hk2
        · rintro ⟨h1, h2, h3, h4⟩
          have hij : i < j := by
            rcases Nat.eq_or_lt_of_le h1 with rfl | hlt
            · exact absurd h3 (by simp [hterm'])
            · exact hlt
          exact ⟨by omega, by omega, h3, fun k hk1 hk2 => h4 k (by omega) hk2⟩

lemma pollFrom_none_of_no_terminal (status : Nat → String)
    (h : ∀ n, terminalStatus (status n) = false) :
    ∀ fuel i, pollFrom status fuel i = none := by
  intro fuel
  induction fuel with
  | zero => intro i; rfl
  | succ n ih =>
      intro i
      simp only [pollFrom, h i, Bool.false_eq_true, if_neg, not_false_iff]
      exact ih (i + 1)

lemma sleepsFrom_of_exit (status : Nat → String) :
    ∀ (fuel i j : Nat), pollFrom status fuel i = some j →
      sleepsFrom status fuel i = List.replicate (j - i) 10 := by
  intro fuel
  induction fuel with
  | zero => intro i j h; cases h
  | succ n ih =>
      intro i j h
      simp only [pollFrom] at h
      simp only [sleepsFrom]
      by_cases hterm : terminalStatus (status i) = true
      · simp only [hterm, if_pos] at h ⊢
        cases h
        simp
      · have hterm' : terminalStatus (status i) = false := by
          cases hh : terminalStatus (status i)
          · rfl
          · exact absurd hh hterm
        simp only [hterm', Bool.false_eq_true, if_neg, not_false_iff] at h ⊢
        have hij : i + 1 ≤ j := ((pollFrom_eq_some status n (i + 1) j).mp h).1
        rw [ih (i + 1) j h]
        have : j - i = (j - (i + 1)) + 1 := by omega
        rw [this, List.replicate_succ]

/-- Claim C1: the polling loop exits at poll `j` iff the status read there is one of
exactly the three terminal statuses (`Completed`, `Failed`, `Stopped`) and every
earlier status was outside this set; while the current status is outside the set the
loop keeps polling. -/
theorem poll_exit_iff_terminal :
    (∀ (status : Nat → String) (fuel j : Nat),
        pollExit status fuel = some j ↔
          (j < fuel ∧ terminalStatus (status j) = true ∧
            ∀ k, k < j → terminalStatus (status k) = false)) ∧
    (∀ s, terminalStatus s = true ↔ (s = "Completed" ∨ s = "Failed" ∨ s = "Stopped")) := by
  constructor
  · intro status fuel j
    rw [pollExit, pollFrom_eq_some status fuel 0 j]
    constructor
    · rintro ⟨_, h2, h3, h4⟩
      exact ⟨by omega, h3, fun k hk => h4 k (Nat.zero_le k) hk⟩
    · rintro ⟨h1, h2, h3⟩
      exact ⟨Nat.zero_le j, by omega, h2, fun k _ hk => h3 k hk⟩
  · intro s
    simp only [terminalStatus, Bool.or_eq_true, beq_iff_eq, or_assoc]

/-- Witness for C1: a status sequence that is `InProgress` twice and then `Completed`
makes the loop exit exactly at the third poll. -/
theorem poll_exit_iff_terminal_witness :
    pollExit (fun n => if n < 2 then "InProgress" else "Completed") 10 = some 2 :=
  (poll_exit_iff_terminal.1 (fun n => if n < 2 then "InProgress" else "Completed") 10 2).mpr
    (by decide)

/-- Claim C7: the driver sleeps a fixed 10 seconds between consecutive polls with no
backoff (the sleep trace of a run exiting at poll `j` is `j` copies of 10), and there
is no iteration limit or timeout: on a status sequence that never reaches a terminal
status, the loop never exits, whatever the fuel. -/
theorem poll_fixed_interval_unbounded :
    (∀ (status : Nat → String) (fuel : Nat),
        (∀ n, terminalStatus (status n) = false) → pollExit status fuel = none) ∧
    (∀ (status : Nat → String) (fuel j : Nat),
        pollExit status fuel = some j → pollSleeps status fuel = List.replicate j 10) := by
  constructor
  · intro status fuel h
    exact pollFrom_none_of_no_terminal status h fuel 0
  · intro status fuel j h
    have := sleepsFrom_of_exit status fuel 0 j h
    simpa [pollSleeps] using this

/-- Witness for C7: on the constantly `InProgress` sequence the loop is still running
after 100 polls, and a run that exits at the third poll slept twice for 10 seconds. -/
theorem poll_fixed_interval_unbounded_witness :
    pollExit (fun _ => "InProgress") 100 = none ∧
    pollSleeps (fun n => if n < 2 then "InProgress" else "Completed") 10 =
      List.replicate 2 10 :=
  ⟨poll_fixed_interval_unbounded.1 (fun _ => "InProgress") 100 (fun _ => rfl),
   poll_fixed_interval_unbounded.2 (fun n => if n < 2 then "InProgress" else "Completed")
     10 2 (by decide)⟩

/-! ## Batch-inference driver: epilogue after the loop (run_batch_inference.py lines 146-222)

After the loop, `main` branches on `status == 'Completed'`.  In the non-success
branch it prints the diagnostic fields of the `describe_transform_job` response
and then simply returns: there is no `sys.exit` anywhere in the script, so the
process exit status is 0 in both branches.  We embed the branch as a pure
function from the final job description to the list of printed diagnostic lines
together with the process exit code. -/

/-- The final `describe_transform_job` response, restricted to the fields the
epilogue reads.  Fields read with `.get(..., 'N/A')` are `Option`s. -/
structure TransformJobDesc where
  status : String
  failureReason : Option String
  inputS3Uri : Option String
  outputS3Path : Option String
  modelName : Option String
  instanceCount : Option Nat
  instanceType : Option String

/-- `d.get(k, 'N/A')` for a string field. -/
def orNA (o : Option String) : String := o.getD "N/A"

/-- The diagnostic lines printed in the failure branch
(run_batch_inference.py lines 197-211). -/
def failureDiagnostics (jobName : String) (d : TransformJobDesc) : List String :=
  (match d.failureReason with
   | some r => ["Failure Reason: " ++ r]
   | none => []) ++
  ["Transform Job Name: " ++ jobName,
   "Status: " ++ d.status,
   "Input S3 URI: " ++ orNA d.inputS3Uri,
   "Output S3 URI: " ++ orNA d.outputS3Path,
   "Model Name: " ++ orNA d.modelName,
   "Instance Count: " ++ (match d.instanceCount with
                          | some n => toString n
                          | none => "N/A"),
   "Instance Type: " ++ orNA d.instanceType]

/-- The driver's post-loop branch: printed lines paired with the process exit
code.  `main` falls off the end of the function in both branches and the script
never calls `sys.exit`, so the exit code is 0 either way. -/
def driverEpilogue (jobName : String) (d : TransformJobDesc) : List String × Nat :=
  if d.status = "Completed" then
    (["Batch inference completed successfully!"], 0)
  else
    (("Job failed with status: " ++ d.status) ::
      "DEBUG INFO - Transform Job Details:" :: failureDiagnostics jobName d, 0)

/-- A concrete failed transform-job description. -/
def descFailed : TransformJobDesc :=
  { status := "Failed"
    failureReason := some "ClientError: model artifact missing"
    inputS3Uri := some "s3://bucket/batch-input/test-1.csv"
    outputS3Path := some "s3://bucket/batch-output/"
    modelName := some "iris-model"
    instanceCount := some 1
    instanceType := some "ml.c6i.large" }

/-- Counterexample to claim C2: on a concrete `Failed` job description the driver
does print the diagnostics, but the process exit code is 0, not a failure status —
refuting the claim that the process exits with a non-zero status. -/
theorem driver_failure_exit_zero_cex :
    (driverEpilogue "job-1" descFailed).2 = 0 ∧
    ¬ (driverEpilogue "job-1" descFailed).2 ≠ 0 ∧
    "Transform Job Name: job-1" ∈ (driverEpilogue "job-1" descFailed).1 := by
  refine ⟨rfl, fun h => h rfl, ?_⟩
  simp [driverEpilogue, descFailed, failureDiagnostics]

/-- Claim C2 as amended: when the terminal status is not `Completed`, the driver
prints the diagnostic fields of the transform-job description (the failure reason
when present, the job name, status, input and output URIs, model name, instance
count and type), and the process then exits with status 0 — no non-zero exit status
is produced. -/
theorem driver_failure_diagnostics_exit_zero (jobName : String) (d : TransformJobDesc)
    (h : d.status ≠ "Completed") :
    (∀ r, d.failureReason = some r →
        ("Failure Reason: " ++ r) ∈ (driverEpilogue jobName d).1) ∧
    ("Transform Job Name: " ++ jobName) ∈ (driverEpilogue jobName d).1 ∧
    ("Status: " ++ d.status) ∈ (driverEpilogue jobName d).1 ∧
    ("Input S3 URI: " ++ orNA d.inputS3Uri) ∈ (driverEpilogue jobName d).1 ∧
    ("Output S3 URI: " ++ orNA d.outputS3Path) ∈ (driverEpilogue jobName d).1 ∧
    ("Model Name: " ++ orNA d.modelName) ∈ (driverEpilogue jobName d).1 ∧
    ("Instance Count: " ++ (match d.instanceCount with
                            | some n => toString n
                            | none => "N/A")) ∈ (driverEpilogue jobName d).1 ∧
    ("Instance Type: " ++ orNA d.instanceType) ∈ (driverEpilogue jobName d).1 ∧
    (driverEpilogue jobName d).2 = 0 := by
  refine ⟨?_, ?_, ?_, ?_, ?_, ?_, ?_, ?_, ?_⟩
  · intro r hr
    simp [driverEpilogue, if_neg h, failureDiagnostics, hr]
  all_goals simp [driverEpilogue, if_neg h, failureDiagnostics]

/-- Witness for the amended C2 at the concrete failed description. -/
theorem driver_failure_diagnostics_exit_zero_witness :
    ("Transform Job Name: " ++ "job-1") ∈ (driverEpilogue "job-1" descFailed).1 ∧
    ("Instance Count: " ++ toString (1 : Nat)) ∈ (driverEpilogue "job-1" descFailed).1 ∧
    (driverEpilogue "job-1" descFailed).2 = 0 := by
  have h := driver_failure_diagnostics_exit_zero "job-1" descFailed (by decide)
  exact ⟨h.2.1, h.2.2.2.2.2.2.1, h.2.2.2.2.2.2.2.2⟩

/-! ## Pipeline definition builder (iris_pipeline.py, `get_pipeline`)

`get_pipeline` builds three step objects — a `TrainingStep` named `TrainModel`,
a `ProcessingStep` named `EvaluateModel` whose input references the training
step's model artifacts, and a `RegisterModel` step collection named
`RegisterModel` whose `model_data` references the training step and whose
`model_metrics` references the evaluation step's output — and puts them, in
that order, in the pipeline's `steps` list.  None of the three steps is wrapped
in a `ConditionStep` or carries any condition; `RegisterModel` is constructed
with `approval_status="PendingManualApproval"` (line 129). -/

inductive StepKind where
  | trainingStep
  | processingStep
  | registerModelStep
deriving DecidableEq, Repr

/-- A pipeline step as declared by `get_pipeline`: its name, kind, the names of the
steps its property references point at, the condition gating it (`none` everywhere:
no `ConditionStep` appears in the file), and, for the register step, the approval
status it is constructed with. -/
structure PipelineStep where
  name : String
  kind : StepKind
  imageUri : String
  role : String
  dependsOn : List String
  condition : Option String
  approvalStatus : Option String
  cacheEnabled : Bool
deriving DecidableEq, Repr

/-- The pipeline object: name, parameters (name, default value), step list. -/
structure SMPipeline where
  name : String
  parameters : List (String × String)
  steps : List PipelineStep
deriving DecidableEq, Repr

/-- Embedding of `get_pipeline` (iris_pipeline.py lines 19-141).  `region` is
accepted and unused, exactly as in the source. -/
def get_pipeline (region role training_image_uri evaluation_image_uri
    model_group_name pipeline_name : String) : SMPipeline :=
  let training_step : PipelineStep :=
    { name := "TrainModel"
      kind := .trainingStep
      imageUri := training_image_uri
      role := role
      dependsOn := []
      condition := none
      approvalStatus := none
      cacheEnabled := true }
  let evaluation_step : PipelineStep :=
    { name := "EvaluateModel"
      kind := .processingStep
      imageUri := evaluation_image_uri
      role := role
      -- ProcessingInput source = training_step.properties.ModelArtifacts (line 90)
      dependsOn := ["TrainModel"]
      condition := none
      approvalStatus := none
      cacheEnabled := true }
  let register_step : PipelineStep :=
    { name := "RegisterModel"
      kind := .registerModelStep
      -- Model(image_uri=training_image_uri, ...) (line 106)
      imageUri := training_image_uri
      role := role
      -- model_data references the training step (line 107), model_metrics the
      -- evaluation step's output (lines 112-119)
      dependsOn := ["TrainModel", "EvaluateModel"]
      condition := none
      approvalStatus := some "PendingManualApproval"
      cacheEnabled := false }
  { name := pipeline_name
    parameters := [("ModelGroupName", model_group_name)]
    steps := [training_step, evaluation_step, register_step] }

/-- Counterexample to claim C3: at concrete arguments, the pipeline's three steps are
`TrainModel`, `EvaluateModel`, `RegisterModel`, and every one of them — the
registration step included — carries no condition: registration is unconditional,
refuting the claim that it is conditional rather than unconditional. -/
theorem register_step_not_conditional_cex :
    ((get_pipeline "eu-north-1" "arn:aws:iam::0:role/r" "train-img" "eval-img"
        "iris-classifier-staging" "IrisPipeline").steps.map PipelineStep.name,
     (get_pipeline "eu-north-1" "arn:aws:iam::0:role/r" "train-img" "eval-img"
        "iris-classifier-staging" "IrisPipeline").steps.map PipelineStep.condition) =
    (["TrainModel", "EvaluateModel", "RegisterModel"], [none, none, none]) := rfl

/-- Claim C3 as amended: `get_pipeline` returns a pipeline declaring exactly three
named steps in the dependency order train → evaluate → register (the evaluation step
references the training step, the registration step references both), and the
registration step is unconditional — no condition gates its execution; it depends on
the evaluation step only through data references. -/
theorem pipeline_three_steps_register_unconditional
    (region role ti ei g pn : String) :
    (get_pipeline region role ti ei g pn).steps.map PipelineStep.name =
      ["TrainModel", "EvaluateModel", "RegisterModel"] ∧
    (get_pipeline region role ti ei g pn).steps.map PipelineStep.dependsOn =
      [[], ["TrainModel"], ["TrainModel", "EvaluateModel"]] ∧
    (get_pipeline region role ti ei g pn).steps.map PipelineStep.condition =
      [none, none, none] :=
  ⟨rfl, rfl, rfl⟩

/-! ## Approval status: set once, never advanced by this repository (claim C4)

The SageMaker API calls the repository's code performs, one constructor per call
site.  `updateModelPackage` is the API operation that would change a model
package's approval status; the repository never issues it.  The pipeline
execution issued by the register step creates the package with the status
`PendingManualApproval` it was constructed with. -/

inductive AwsCall where
  /-- `sm_client.list_model_packages(..., ModelApprovalStatus='Approved', ...)`
  (run_batch_inference.py lines 19-25): a server-side filter, read-only. -/
  | listModelPackages (group : String) (approvalFilter : Option String)
  /-- `sm_client.describe_model_package` (run_batch_inference.py line 64). -/
  | describeModelPackage
  /-- `s3.upload_file` (run_batch_inference.py line 88). -/
  | s3Upload
  /-- `transformer.transform(...)` (run_batch_inference.py lines 117-123). -/
  | createTransformJob
  /-- `sm_client.describe_transform_job` in the polling loop (line 134). -/
  | describeTransformJob
  /-- `s3.download_file` (run_batch_inference.py line 160). -/
  | s3Download
  /-- `pipeline.upsert` (iris_pipeline.py line 178). -/
  | upsertPipeline
  /-- `pipeline.start` (iris_pipeline.py line 184). -/
  | startPipelineExecution
  /-- `execution.describe()` (iris_pipeline.py line 191). -/
  | describePipelineExecution
  /-- The model-package creation the register step performs when the pipeline
  runs, with the approval status the step was constructed with (line 129). -/
  | createModelPackage (group approvalStatus : String)
  /-- The API operation that changes an existing package's approval status;
  present in the AWS API, never called by this repository. -/
  | updateModelPackage (arn newApprovalStatus : String)
deriving DecidableEq, Repr

/-- An `AwsCall` changes an existing model package's approval status only if it is
an `updateModelPackage`. -/
def modifiesApprovalStatus : AwsCall → Bool
  | .updateModelPackage _ _ => true
  | _ => false

/-- Every SageMaker/S3 call the repository's code performs, in source order:
the batch driver's calls, then the pipeline entry point's calls, then the
package creation performed on the register step's behalf. -/
def repoAwsCalls : List AwsCall :=
  [.listModelPackages "iris-classifier-staging" (some "Approved"),
   .describeModelPackage,
   .s3Upload,
   .createTransformJob,
   .describeTransformJob,
   .s3Download,
   .upsertPipeline,
   .startPipelineExecution,
   .describePipelineExecution,
   .createModelPackage "iris-classifier-staging" "PendingManualApproval"]

/-- Claim C4: the registration step's model approval status is the pending state
`PendingManualApproval`; no step of the pipeline is conditioned on it (no condition
at all), and none of the API calls the repository performs modifies a model
package's approval status — advancing it requires external action. -/
theorem approval_pending_requires_human (region role ti ei g pn : String) :
    (get_pipeline region role ti ei g pn).steps.map PipelineStep.approvalStatus =
      [none, none, some "PendingManualApproval"] ∧
    (get_pipeline region role ti ei g pn).steps.map PipelineStep.condition =
      [none, none, none] ∧
    repoAwsCalls.all (fun c => !(modifiesApprovalStatus c)) = true :=
  ⟨rfl, rfl, rfl⟩

/-! ## Evaluation script (evaluate.py)

The script loads `model.joblib` from the model channel (falling back once to
extracting `model.tar.gz`), predicts on the full iris dataset, computes
`accuracy_score`, and `precision_score` / `recall_score` / `f1_score` with
`average='weighted'`, and writes the report JSON.

The iris feature matrix is fixed, so a model is embedded by the prediction list
it produces on it; the true labels of `load_iris` are 50 copies each of 0, 1, 2.
Metrics are computed from the list of (true label, predicted label) pairs.
sklearn with `average='weighted'` averages per-class scores weighted by support
over the union of labels occurring in `y_true` and `y_pred`, and a per-class
score with zero denominator is set to 0 — as is `x / 0 = 0` in `ℚ`. -/

/-- The `load_iris(return_X_y=True)` target vector: 50 samples of each class. -/
def irisLabels : List Nat :=
  List.replicate 50 0 ++ List.replicate 50 1 ++ List.replicate 50 2

/-- Number of samples where the prediction equals the true label. -/
def matchCount (ps : List (Nat × Nat)) : Nat :=
  ps.countP (fun q => q.1 == q.2)

/-- `accuracy_score(y, y_pred)`: fraction of exactly matching samples. -/
def accuracy_score (ps : List (Nat × Nat)) : ℚ :=
  (matchCount ps : ℚ) / (ps.length : ℚ)

/-- Support of class `c`: number of samples whose true label is `c`. -/
def classSupport (ps : List (Nat × Nat)) (c : Nat) : Nat :=
  ps.countP (fun q => q.1 == c)

/-- Number of samples predicted as class `c`. -/
def predCount (ps : List (Nat × Nat)) (c : Nat) : Nat :=
  ps.countP (fun q => q.2 == c)

/-- True positives of class `c`. -/
def truePos (ps : List (Nat × Nat)) (c : Nat) : Nat :=
  ps.countP (fun q => q.1 == c && q.2 == c)

/-- The label set sklearn scores over: the union of the labels occurring in
`y_true` and in `y_pred`. -/
def classLabels (ps : List (Nat × Nat)) : Finset Nat :=
  (ps.map Prod.fst).toFinset ∪ (ps.map Prod.snd).toFinset

/-- Per-class precision `TP / (TP + FP)`; 0 when nothing is predicted as `c`. -/
def precClass (ps : List (Nat × Nat)) (c : Nat) : ℚ :=
  (truePos ps c : ℚ) / (predCount ps c : ℚ)

/-- Per-class recall `TP / (TP + FN)`; 0 when class `c` has no support. -/
def recClass (ps : List (Nat × Nat)) (c : Nat) : ℚ :=
  (truePos ps c : ℚ) / (classSupport ps c : ℚ)

/-- Per-class F1, the harmonic mean of precision and recall; 0 when both are 0. -/
def f1Class (ps : List (Nat × Nat)) (c : Nat) : ℚ :=
  2 * precClass ps c * recClass ps c / (precClass ps c + recClass ps c)

/-- `average='weighted'`: the support-weighted average of a per-class score, as
`numpy.average(scores, weights=support)`. -/
def weightedScore (ps : List (Nat × Nat)) (m : Nat → ℚ) : ℚ :=
  (Finset.sum (classLabels ps) (fun c => (classSupport ps c : ℚ) * m c)) /
    (Finset.sum (classLabels ps) (fun c => (classSupport ps c : ℚ)))

/-- `precision_score(y, y_pred, average='weighted')`. -/
def precision_score (ps : List (Nat × Nat)) : ℚ :=
  weightedScore ps (precClass ps)

/-- `recall_score(y, y_pred, average='weighted')`. -/
def recall_score (ps : List (Nat × Nat)) : ℚ :=
  weightedScore ps (recClass ps)

/-- `f1_score(y, y_pred, average='weighted')`. -/
def f1_score (ps : List (Nat × Nat)) : ℚ :=
  weightedScore ps (f1Class ps)

/-- JSON values as the report needs them: numbers and objects. -/
inductive Jval where
  | num (q : ℚ)
  | obj (fields : List (String × Jval))

/-- The `report_dict` the script builds (evaluate.py lines 80-87). -/
def evaluation_report (a p r f : ℚ) : Jval :=
  .obj [("metrics", .obj
    [("accuracy", .obj [("value", .num a)]),
     ("precision", .obj [("value", .num p)]),
     ("recall", .obj [("value", .num r)]),
     ("f1_score", .obj [("value", .num f)])])]

/-- The report the script writes for a model whose predictions on the iris
features are `pred` (evaluate.py lines 62-87). -/
def evalReport (pred : List Nat) : Jval :=
  evaluation_report
    (accuracy_score (irisLabels.zip pred))
    (precision_score (irisLabels.zip pred))
    (recall_score (irisLabels.zip pred))
    (f1_score (irisLabels.zip pred))

/-- Modelled from the spec: the published report schema,
`\x7b"metrics": \x7b"<name>": \x7b"value": <float>\x7d\x7d\x7d` with exactly the
four fixed metric names.  Used only to compare the script's report against the
spec's schema. -/
def specReportSchema (j : Jval) : Bool :=
  match j with
  | .obj [(mk, .obj fields)] =>
      mk == "metrics" &&
      fields.map Prod.fst == ["accuracy", "precision", "recall", "f1_score"] &&
      fields.all (fun kv =>
        match kv.2 with
        | .obj [(vk, .num _)] => vk == "value"
        | _ => false)
  | _ => false

/-! ### Model loading with one tar fallback (evaluate.py lines 44-59) -/

/-- The content found at a `model.joblib` path: either a valid serialized model
(embedded as its prediction list on the iris features) or bytes `joblib.load`
fails on. -/
inductive MFile where
  | valid (pred : List Nat)
  | corrupt
deriving DecidableEq, Repr

/-- The model channel directory: whether `model.joblib` exists and with what
content, and whether `model.tar.gz` exists and what `model.joblib` member (if
any) it contains. -/
structure ModelDir where
  joblibFile : Option MFile
  tarFile : Option (Option MFile)
deriving DecidableEq, Repr

/-- The errors `joblib.load` can raise here, as the script distinguishes them:
`FileNotFoundError` is caught once, everything else propagates. -/
inductive LoadErr where
  | fileNotFound
  | loadFailure
deriving DecidableEq, Repr

/-- `joblib.load(model_path)` on the directory. -/
def joblib_load (d : ModelDir) : Except LoadErr (List Nat) :=
  match d.joblibFile with
  | none => .error .fileNotFound
  | some .corrupt => .error .loadFailure
  | some (.valid m) => .ok m

/-- `tar.extractall(path=model_channel)`: the tar's `model.joblib` member (if it
has one) is written into the directory. -/
def extract_tar_into (d : ModelDir) (content : Option MFile) : ModelDir :=
  match content with
  | some f => { d with joblibFile := some f }
  | none => d

/-- The script's load logic (evaluate.py lines 44-59): try `joblib.load`; on
`FileNotFoundError`, if `model.tar.gz` exists extract it and retry the load once,
otherwise `raise` re-raises the original error; any other load error propagates.
Returns the loaded model together with the (possibly extended) directory. -/
def load_model_with_fallback (d : ModelDir) : Except LoadErr (List Nat × ModelDir) :=
  match joblib_load d with
  | .ok m => .ok (m, d)
  | .error .fileNotFound =>
      match d.tarFile with
      | some content =>
          match joblib_load (extract_tar_into d content) with
          | .ok m => .ok (m, extract_tar_into d content)
          | .error e => .error e
      | none => .error .fileNotFound
  | .error e => .error e

/-- One full run of the evaluation script on a model directory: load the model
(with the single tar fallback), predict on the fixed iris dataset, and produce
the report that is written to `evaluation.json`.  Returns the directory as the
run leaves it together with the written report. -/
def run_evaluation (d : ModelDir) : Except LoadErr (ModelDir × Jval) :=
  match load_model_with_fallback d with
  | .ok (m, d') => .ok (d', evalReport m)
  | .error e => .error e

/-- Claim C5: whatever the model predicts, the report the evaluation script writes
is exactly one JSON object of the schema
`\x7b"metrics": \x7b"<name>": \x7b"value": <number>\x7d\x7d\x7d` whose metrics
object has exactly the four keys accuracy, precision, recall, f1_score and no
others, each mapped to an object with the single numeric field `value`. -/
theorem eval_report_matches_spec_schema (pred : List Nat) :
    specReportSchema (evalReport pred) = true := rfl


lemma load_eq_ok (d : ModelDir) (m : List Nat) (h : joblib_load d = .ok m) :
    load_model_with_fallback d = .ok (m, d) := by
  obtain ⟨jf, tf⟩ := d
  cases jf with
  | none => simp [joblib_load] at h
  | some mf =>
      cases mf with
      | corrupt => simp [joblib_load] at h
      | valid m0 =>
          have hm : m0 = m := by
            simpa [joblib_load] using h
          subst hm
          rfl

lemma load_eq_fail (d : ModelDir) (h : joblib_load d = .error .loadFailure) :
    load_model_with_fallback d = .error .loadFailure := by
  obtain ⟨jf, tf⟩ := d
  cases jf with
  | none => simp [joblib_load] at h
  | some mf =>
      cases mf with
      | corrupt => rfl
      | valid m0 => simp [joblib_load] at h

lemma load_eq_fnf_none (d : ModelDir) (h1 : joblib_load d = .error .fileNotFound)
    (h2 : d.tarFile = none) :
    load_model_with_fallback d = .error .fileNotFound := by
  obtain ⟨jf, tf⟩ := d
  cases jf with
  | some mf => cases mf <;> simp [joblib_load] at h1
  | none =>
      cases tf with
      | some c2 => simp at h2
      | none => rfl

lemma load_eq_fnf_some (d : ModelDir) (content : Option MFile)
    (h1 : joblib_load d = .error .fileNotFound) (h2 : d.tarFile = some content) :
    load_model_with_fallback d =
      (joblib_load (extract_tar_into d content)).map
        (fun m => (m, extract_tar_into d content)) := by
  obtain ⟨jf, tf⟩ := d
  cases jf with
  | some mf => cases mf <;> simp [joblib_load] at h1
  | none =>
      cases tf with
      | none => simp at h2
      | some c2 =>
          have hc : c2 = content := by simpa using h2
          subst hc
          cases c2 with
          | none => rfl
          | some f => cases f <;> rfl

lemma load_ok_joblib (d d' : ModelDir) (m : List Nat)
    (h : load_model_with_fallback d = .ok (m, d')) : joblib_load d' = .ok m := by
  cases hj : joblib_load d with
  | ok m0 =>
      rw [load_eq_ok d m0 hj] at h
      simp only [Except.ok.injEq, Prod.mk.injEq] at h
      rw [← h.2, hj, h.1]
  | error e =>
      cases e with
      | loadFailure => rw [load_eq_fail d hj] at h; cases h
      | fileNotFound =>
          cases ht : d.tarFile with
          | none => rw [load_eq_fnf_none d hj ht] at h; cases h
          | some content =>
              rw [load_eq_fnf_some d content hj ht] at h
              cases hj2 : joblib_load (extract_tar_into d content) with
              | ok m1 =>
                  rw [hj2] at h
                  simp only [Except.map, Except.ok.injEq, Prod.mk.injEq] at h
                  rw [← h.2, hj2, h.1]
              | error e2 =>
                  rw [hj2] at h
                  simp only [Except.map] at h
                  exact Except.noConfusion h

/-- Claim C8: re-running the evaluation on the same model directory is idempotent.
A successful run is a deterministic function of the model and the fixed dataset,
and running the script again on the state the first run leaves behind (where the
tar fallback, if it fired, has already extracted the model) succeeds with the
identical report and an unchanged directory. -/
theorem evaluation_idempotent (d d' : ModelDir) (rep : Jval)
    (h : run_evaluation d = .ok (d', rep)) :
    run_evaluation d' = .ok (d', rep) := by
  unfold run_evaluation at h ⊢
  cases hl : load_model_with_fallback d with
  | error e => rw [hl] at h; cases h
  | ok p =>
      obtain ⟨m, d0⟩ := p
      rw [hl] at h
      simp only [Except.ok.injEq, Prod.mk.injEq] at h
      obtain ⟨hd, hrep⟩ := h
      have hj : joblib_load d' = .ok m := load_ok_joblib d d' m (by rw [hl, hd])
      rw [load_eq_ok d' m hj]
      show Except.ok (d', evalReport m) = Except.ok (d', rep)
      rw [hrep]

/-- Witness for C8: a directory holding only an unextracted `model.tar.gz`. The
first run extracts it and reports; a second run, started from the extracted
directory the first run leaves, produces the identical result. -/
theorem evaluation_idempotent_witness :
    run_evaluation ⟨some (.valid [0, 1, 2]), some (some (.valid [0, 1, 2]))⟩ =
      .ok (⟨some (.valid [0, 1, 2]), some (some (.valid [0, 1, 2]))⟩,
           evalReport [0, 1, 2]) :=
  evaluation_idempotent
    ⟨none, some (some (.valid [0, 1, 2]))⟩
    ⟨some (.valid [0, 1, 2]), some (some (.valid [0, 1, 2]))⟩
    (evalReport [0, 1, 2]) rfl

/-- Claim C6: a `FileNotFoundError` from the model load triggers exactly one
fallback — extract `model.tar.gz` into the model directory and retry the load once,
whatever that single retry then returns — the original file-not-found error is
re-raised when `model.tar.gz` does not exist, and any failure other than a missing
model file propagates uncaught. -/
theorem model_load_one_fallback (d : ModelDir) :
    (joblib_load d = .error .fileNotFound → d.tarFile = none →
        load_model_with_fallback d = .error .fileNotFound) ∧
    (joblib_load d = .error .loadFailure →
        load_model_with_fallback d = .error .loadFailure) ∧
    (∀ content, joblib_load d = .error .fileNotFound → d.tarFile = some content →
        load_model_with_fallback d =
          (joblib_load (extract_tar_into d content)).map
            (fun m => (m, extract_tar_into d content))) :=
  ⟨fun h1 h2 => load_eq_fnf_none d h1 h2,
   fun h1 => load_eq_fail d h1,
   fun content h1 h2 => load_eq_fnf_some d content h1 h2⟩

/-- Witness for C6: an empty model directory re-raises the file-not-found error, a
corrupt `model.joblib` propagates the load failure, and a directory with only a tar
holding a valid model is loaded through the single extraction fallback. -/
theorem model_load_one_fallback_witness :
    load_model_with_fallback ⟨none, none⟩ = .error .fileNotFound ∧
    load_model_with_fallback ⟨some .corrupt, none⟩ = .error .loadFailure ∧
    load_model_with_fallback ⟨none, some (some (.valid [1]))⟩ =
      (joblib_load (extract_tar_into ⟨none, some (some (.valid [1]))⟩
          (some (.valid [1])))).map
        (fun m => (m, extract_tar_into ⟨none, some (some (.valid [1]))⟩
          (some (.valid [1])))) :=
  ⟨(model_load_one_fallback ⟨none, none⟩).1 rfl rfl,
   (model_load_one_fallback ⟨some .corrupt, none⟩).2.1 rfl,
   (model_load_one_fallback ⟨none, some (some (.valid [1]))⟩).2.2
     (some (.valid [1])) rfl rfl⟩

/-! ### The four metrics lie in [0, 1] (claim C9) -/

lemma truePos_le_predCount (ps : List (Nat × Nat)) (c : Nat) :
    truePos ps c ≤ predCount ps c := by
  apply List.countP_mono_left
  intro q _ h
  rw [Bool.and_eq_true] at h
  exact h.2

lemma truePos_le_classSupport (ps : List (Nat × Nat)) (c : Nat) :
    truePos ps c ≤ classSupport ps c := by
  apply List.countP_mono_left
  intro q _ h
  rw [Bool.and_eq_true] at h
  exact h.1

lemma accuracy_score_mem (ps : List (Nat × Nat)) :
    0 ≤ accuracy_score ps ∧ accuracy_score ps ≤ 1 := by
  unfold accuracy_score
  constructor
  · exact div_nonneg (Nat.cast_nonneg _) (Nat.cast_nonneg _)
  · exact div_le_one_of_le₀
      (Nat.cast_le.mpr (List.countP_le_length _)) (Nat.cast_nonneg _)

lemma precClass_mem (ps : List (Nat × Nat)) (c : Nat) :
    0 ≤ precClass ps c ∧ precClass ps c ≤ 1 := by
  unfold precClass
  exact ⟨div_nonneg (Nat.cast_nonneg _) (Nat.cast_nonneg _),
    div_le_one_of_le₀ (Nat.cast_le.mpr (truePos_le_predCount ps c)) (Nat.cast_nonneg _)⟩

lemma recClass_mem (ps : List (Nat × Nat)) (c : Nat) :
    0 ≤ recClass ps c ∧ recClass ps c ≤ 1 := by
  unfold recClass
  exact ⟨div_nonneg (Nat.cast_nonneg _) (Nat.cast_nonneg _),
    div_le_one_of_le₀ (Nat.cast_le.mpr (truePos_le_classSupport ps c)) (Nat.cast_nonneg _)⟩

lemma harmonic_mean_mem (p r : ℚ) (hp0 : 0 ≤ p) (hp1 : p ≤ 1) (hr0 : 0 ≤ r)
    (hr1 : r ≤ 1) : 0 ≤ 2 * p * r / (p + r) ∧ 2 * p * r / (p + r) ≤ 1 := by
  rcases eq_or_lt_of_le (add_nonneg hp0 hr0) with hz | hpos
  · rw [← hz, div_zero]
    exact ⟨le_refl 0, by norm_num⟩
  · constructor
    · exact div_nonneg (mul_nonneg (mul_nonneg (by norm_num) hp0) hr0) (le_of_lt hpos)
    · rw [div_le_one hpos]
      nlinarith [mul_nonneg hp0 (sub_nonneg.mpr hr1), mul_nonneg hr0 (sub_nonneg.mpr hp1)]

lemma f1Class_mem (ps : List (Nat × Nat)) (c : Nat) :
    0 ≤ f1Class ps c ∧ f1Class ps c ≤ 1 := by
  unfold f1Class
  exact harmonic_mean_mem (precClass ps c) (recClass ps c)
    (precClass_mem ps c).1 (precClass_mem ps c).2
    (recClass_mem ps c).1 (recClass_mem ps c).2

lemma weightedScore_mem (ps : List (Nat × Nat)) (m : Nat → ℚ)
    (hm : ∀ c, 0 ≤ m c ∧ m c ≤ 1) :
    0 ≤ weightedScore ps m ∧ weightedScore ps m ≤ 1 := by
  unfold weightedScore
  have hden : 0 ≤ Finset.sum (classLabels ps) (fun c => ((classSupport ps c : ℚ))) :=
    Finset.sum_nonneg (fun c _ => Nat.cast_nonneg _)
  constructor
  · exact div_nonneg
      (Finset.sum_nonneg (fun c _ => mul_nonneg (Nat.cast_nonneg _) (hm c).1)) hden
  · refine div_le_one_of_le₀ (Finset.sum_le_sum (fun c _ => ?_)) hden
    exact mul_le_of_le_one_right (Nat.cast_nonneg _) (hm c).2

/-- Claim C9: for every model (prediction list) and every labelling of the dataset,
each of the four metrics the evaluation script computes — accuracy and the
support-weighted precision, recall and F1 — lies in the closed interval [0, 1]. -/
theorem metrics_in_unit_interval (y pred : List Nat) :
    (0 ≤ accuracy_score (y.zip pred) ∧ accuracy_score (y.zip pred) ≤ 1) ∧
    (0 ≤ precision_score (y.zip pred) ∧ precision_score (y.zip pred) ≤ 1) ∧
    (0 ≤ recall_score (y.zip pred) ∧ recall_score (y.zip pred) ≤ 1) ∧
    (0 ≤ f1_score (y.zip pred) ∧ f1_score (y.zip pred) ≤ 1) :=
  ⟨accuracy_score_mem (y.zip pred),
   weightedScore_mem (y.zip pred) _ (precClass_mem (y.zip pred)),
   weightedScore_mem (y.zip pred) _ (recClass_mem (y.zip pred)),
   weightedScore_mem (y.zip pred) _ (f1Class_mem (y.zip pred))⟩

/-! ## Inference module (inference.py): content-type gates

`input_fn` accepts only `text/csv`: it strips the body, splits it into lines,
splits each line on commas and converts each field with the platform's `float`
(embedded as a parameter `toFloat : String → Option ℚ`, since `float` is a
Python builtin, not repository code; a field it rejects raises the same
`ValueError` class).  `output_fn` accepts only `text/csv` and joins the integer
predictions with newlines.  Any other content/accept type raises `ValueError`. -/

/-- The one exception class the inference module raises. -/
inductive InferErr where
  | valueError (msg : String)
deriving DecidableEq, Repr

/-- `[float(x) for x in line.split(",")]`. -/
def parseLine (toFloat : String → Option ℚ) (line : String) : Option (List ℚ) :=
  (line.splitOn ",").mapM toFloat

/-- `input_fn(request_body, request_content_type)` (inference.py lines 129-137). -/
def input_fn (toFloat : String → Option ℚ)
    (request_body request_content_type : String) :
    Except InferErr (List (List ℚ)) :=
  if request_content_type = "text/csv" then
    match (request_body.trim.splitOn "\n").mapM (parseLine toFloat) with
    | some rows => .ok rows
    | none => .error (.valueError "could not convert string to float")
  else
    .error (.valueError ("Unsupported content type: " ++ request_content_type))

/-- `output_fn(predictions, accept)` (inference.py lines 145-150). -/
def output_fn (predictions : List Int) (accept : String) :
    Except InferErr (String × String) :=
  if accept = "text/csv" then
    .ok (String.intercalate "\n" (predictions.map toString), accept)
  else
    .error (.valueError ("Unsupported accept type: " ++ accept))

/-- Claim C10: the inference interface accepts only `text/csv`.  For every request
content type other than exactly `text/csv`, `input_fn` raises `ValueError` (for any
body and any float parser) without returning data, and for every accept type other
than exactly `text/csv`, `output_fn` raises `ValueError` (for any predictions)
without producing output. -/
theorem inference_content_type_gates (toFloat : String → Option ℚ)
    (body ct : String) (hct : ct ≠ "text/csv")
    (predictions : List Int) (accept : String) (hacc : accept ≠ "text/csv") :
    input_fn toFloat body ct =
      .error (.valueError ("Unsupported content type: " ++ ct)) ∧
    output_fn predictions accept =
      .error (.valueError ("Unsupported accept type: " ++ accept)) := by
  constructor
  · unfold input_fn
    rw [if_neg hct]
  · unfold output_fn
    rw [if_neg hacc]

/-- Witness for C10 at the concrete non-CSV type `application/json`. -/
theorem inference_content_type_gates_witness :
    input_fn (fun _ => none) "1.0,2.0" "application/json" =
      .error (.valueError ("Unsupported content type: " ++ "application/json")) ∧
    output_fn [0, 1] "application/json" =
      .error (.valueError ("Unsupported accept type: " ++ "application/json")) :=
  inference_content_type_gates (fun _ => none) "1.0,2.0" "application/json"
    (by decide) [0, 1] "application/json" (by decide)
